import Mathlib

/-!
Verification of the Roo-Code task orchestration core (`src/core/task/Task.ts`
and `src/shared/api.ts`) through a shallow embedding in Lean.

The embedding models the data the claims are about — the UI-facing message
log (`clineMessages`), the API-facing conversation history
(`apiConversationHistory`), the partial-message coalescing of `say`/`ask`,
the blocking-ask wait, the resume-from-history transformation, the
rate-limit / retry-delay arithmetic, the previous-response-id suppression
flag, and `getModelMaxOutputTokens` — as executable Lean functions that
mirror the TypeScript control flow branch by branch.  Time (`Date.now()`)
is passed in explicitly as a `Nat`; asynchronous waits are modelled by
their wake conditions; the fallible persistence layer is modelled as an
explicit `Except`-valued function supplied by the caller.
-/

namespace RooCode

/-! ## Data model: UI messages (`ClineMessage`) -/

/-- The `type` discriminator of a `ClineMessage`: `"ask"` or `"say"`. -/
inductive ClineMsgType where
  | ask
  | say
deriving DecidableEq, Repr

/-- `ContextCondense` record attached to a `condense_context` say
(summary text, cost, token counts); created once, never mutated. -/
structure ContextCondense where
  summary : String
  cost : Rat
  newContextTokens : Nat
  prevContextTokens : Nat
deriving DecidableEq, Repr

/-- One entry of the human-facing log `Task.clineMessages`.
`partialFlag` models the tri-state `partial` field of the source:
`some true` = still streaming, `some false` = completion of a partial
message, `none` = field absent (atomic complete message). -/
structure ClineMessage where
  ts : Nat
  msgType : ClineMsgType
  /-- The `ask`/`say` subtype tag (`ClineAsk` / `ClineSay` in the source). -/
  tag : String
  text : Option String := none
  images : Option (List String) := none
  partialFlag : Option Bool := none
  progressStatus : Option String := none
  isProtected : Option Bool := none
  checkpoint : Option String := none
  contextCondense : Option ContextCondense := none
  metadata : Option String := none
deriving DecidableEq, Repr

/-- The response slot filled by `handleWebviewAskResponse`
(`ClineAskResponse` in `shared/WebviewMessage`). -/
inductive ClineAskResponse where
  | yesButtonClicked
  | noButtonClicked
  | messageResponse
deriving DecidableEq, Repr

/-- The errors `ask` and `say` throw (`new Error(...)` in the source). -/
inductive TaskError where
  /-- thrown when `this.abort` is already set. -/
  | aborted
  /-- thrown when an ask is a partial update, or when a newer message
  superseded a waiting ask (the various
  `Current ask promise was ignored` errors). -/
  | askIgnored
deriving DecidableEq, Repr

/-- The slice of mutable `Task` state that `ask` and `say` read and write. -/
structure TaskState where
  abort : Bool := false
  clineMessages : List ClineMessage := []
  lastMessageTs : Option Nat := none
  askResponse : Option ClineAskResponse := none
  askResponseText : Option String := none
  askResponseImages : Option (List String) := none
deriving DecidableEq, Repr

/-- In-memory effect of `addToClineMessages`: push onto `clineMessages`.
(The persistence side and its error isolation are modelled separately,
see `saveClineMessagesCaught`.) -/
def addToClineMessagesMem (st : TaskState) (message : ClineMessage) : TaskState :=
  { st with clineMessages := st.clineMessages ++ [message] }

/-- Replace the last message of the log by `f` of it (the source mutates
`lastMessage` in place through the reference returned by `.at(-1)`). -/
def updateLastMessage (msgs : List ClineMessage) (f : ClineMessage → ClineMessage) :
    List ClineMessage :=
  match msgs.getLast? with
  | some m => msgs.dropLast ++ [f m]
  | none => msgs

/-- `lastMessage && lastMessage.partial && lastMessage.type === "say" &&
lastMessage.say === type` (JS truthiness: `partial` is truthy exactly when
it is `true`). -/
def isUpdatingPreviousPartialSay (msgs : List ClineMessage) (tag : String) : Bool :=
  match msgs.getLast? with
  | some m => m.partialFlag == some true && m.msgType == .say && m.tag == tag
  | none => false

/-- Same test for `ask` (`lastMessage.type === "ask" && lastMessage.ask === type`). -/
def isUpdatingPreviousPartialAsk (msgs : List ClineMessage) (tag : String) : Bool :=
  match msgs.getLast? with
  | some m => m.partialFlag == some true && m.msgType == .ask && m.tag == tag
  | none => false

/-- The option bag of `say` (`{ isNonInteractive?, metadata? }`). -/
structure SayOptions where
  isNonInteractive : Bool := false
  metadata : Option String := none
deriving DecidableEq, Repr

/-- `Task.say`, modelled as a pure step on `TaskState` with the clock value
`now` (`Date.now()`) passed in.  Mirrors the source branch for branch:

* throws `aborted` when the abort flag is set;
* `partialArg = some true`: update the trailing matching partial in place,
  else append a new partial entry stamped `now`;
* `partialArg = some false`: finalize the trailing matching partial in
  place, reusing its original `ts`, else append a new complete entry
  (with no `partial` field);
* `partialArg = none`: append a new atomic complete entry.

`lastMessageTs` is only advanced when `opts.isNonInteractive` is false,
and an in-place partial update never touches it. -/
def sayStep (st : TaskState) (tag : String) (text : Option String)
    (images : Option (List String)) (partialArg : Option Bool)
    (checkpoint : Option String) (progressStatus : Option String)
    (opts : SayOptions) (contextCondense : Option ContextCondense)
    (now : Nat) : Except TaskError TaskState :=
  if st.abort then
    .error .aborted
  else
    match partialArg with
    | some true =>
      if isUpdatingPreviousPartialSay st.clineMessages tag then
        -- Existing partial message, so update it (ts left untouched).
        .ok { st with clineMessages := updateLastMessage st.clineMessages fun m =>
                { m with text := text, images := images, partialFlag := some true,
                         progressStatus := progressStatus } }
      else
        -- New partial message: add it with partial state.
        let sayTs := now
        let st := if opts.isNonInteractive then st else { st with lastMessageTs := some sayTs }
        .ok (addToClineMessagesMem st
          { ts := sayTs, msgType := .say, tag := tag, text := text, images := images,
            partialFlag := some true, contextCondense := contextCondense,
            metadata := opts.metadata })
    | some false =>
      if isUpdatingPreviousPartialSay st.clineMessages tag then
        -- Complete version of a previously partial message: replace in
        -- place; the ts is never altered after first being set.
        let lastTs := (st.clineMessages.getLast?.map (·.ts)).getD 0
        let st := if opts.isNonInteractive then st else { st with lastMessageTs := some lastTs }
        .ok { st with clineMessages := updateLastMessage st.clineMessages fun m =>
                { m with text := text, images := images, partialFlag := some false,
                         progressStatus := progressStatus,
                         metadata := match opts.metadata with
                           | some md => some md   -- `if (options.metadata)`
                           | none => m.metadata } }
      else
        -- New and complete message, added like normal (no partial field).
        let sayTs := now
        let st := if opts.isNonInteractive then st else { st with lastMessageTs := some sayTs }
        .ok (addToClineMessagesMem st
          { ts := sayTs, msgType := .say, tag := tag, text := text, images := images,
            contextCondense := contextCondense, metadata := opts.metadata })
    | none =>
      -- New non-partial message.
      let sayTs := now
      let st := if opts.isNonInteractive then st else { st with lastMessageTs := some sayTs }
      .ok (addToClineMessagesMem st
        { ts := sayTs, msgType := .say, tag := tag, text := text, images := images,
          checkpoint := checkpoint, contextCondense := contextCondense })

/-! ## Ask: the pre-wait phase and the wait's wake condition -/

/-- What the pre-wait phase of `Task.ask` produces: either a throw (with
the state as left behind), or a state suspended on `pWaitFor` with the
ask's own timestamp. -/
inductive AskPhase1Result where
  | thrown (st : TaskState) (err : TaskError)
  | waiting (st : TaskState) (askTs : Nat)
deriving DecidableEq, Repr

/-- Clear the three `askResponse*` slots (done before every terminal ask). -/
def clearAskResponse (st : TaskState) : TaskState :=
  { st with askResponse := none, askResponseText := none, askResponseImages := none }

/-- The pre-wait phase of `Task.ask`, mirroring the source: throws
`aborted` if the abort flag is set; a partial ask updates or appends and
always throws `askIgnored`; a terminal ask (partial `false` or absent)
clears the response slots, coalesces into or appends an entry, sets
`lastMessageTs` to the ask's timestamp, and reaches the wait. -/
def askStep (st : TaskState) (tag : String) (text : Option String)
    (partialArg : Option Bool) (progressStatus : Option String)
    (isProtected : Option Bool) (now : Nat) : AskPhase1Result :=
  if st.abort then
    .thrown st .aborted
  else
    match partialArg with
    | some true =>
      if isUpdatingPreviousPartialAsk st.clineMessages tag then
        -- Existing partial message, so update it, then throw (#1).
        .thrown
          { st with clineMessages := updateLastMessage st.clineMessages fun m =>
              { m with text := text, partialFlag := some true,
                       progressStatus := progressStatus, isProtected := isProtected } }
          .askIgnored
      else
        -- New partial message, added with partial state, then throw (#2).
        let askTs := now
        .thrown
          (addToClineMessagesMem { st with lastMessageTs := some askTs }
            { ts := askTs, msgType := .ask, tag := tag, text := text,
              partialFlag := some true, isProtected := isProtected })
          .askIgnored
    | some false =>
      if isUpdatingPreviousPartialAsk st.clineMessages tag then
        -- Complete version of a previously partial ask: replace in place,
        -- reusing its ts (the ts is never altered after first being set).
        let st := clearAskResponse st
        let askTs := (st.clineMessages.getLast?.map (·.ts)).getD 0
        .waiting
          { st with lastMessageTs := some askTs,
                    clineMessages := updateLastMessage st.clineMessages fun m =>
                      { m with text := text, partialFlag := some false,
                               progressStatus := progressStatus,
                               isProtected := isProtected } }
          askTs
      else
        -- New and complete ask, added like normal.
        let st := clearAskResponse st
        let askTs := now
        .waiting
          (addToClineMessagesMem { st with lastMessageTs := some askTs }
            { ts := askTs, msgType := .ask, tag := tag, text := text,
              isProtected := isProtected })
          askTs
    | none =>
      let st := clearAskResponse st
      let askTs := now
      .waiting
        (addToClineMessagesMem { st with lastMessageTs := some askTs }
          { ts := askTs, msgType := .ask, tag := tag, text := text,
            isProtected := isProtected })
        askTs

/-- Outcome of one poll of the `pWaitFor` suspension in `ask`. -/
inductive AskWaitStatus where
  /-- `askResponse === undefined && lastMessageTs === askTs`: the wake
  condition is false, keep polling. -/
  | stillWaiting
  /-- woken with `lastMessageTs !== askTs`: a newer message superseded
  this ask; `throw new Error("Current ask promise was ignored")`. -/
  | throwIgnored
  /-- woken with a delivered response and an unchanged watermark. -/
  | answered (response : ClineAskResponse) (text : Option String)
      (images : Option (List String))
deriving DecidableEq, Repr

/-- One poll of `pWaitFor(() => askResponse !== undefined || lastMessageTs
!== askTs)` followed by the post-wake check of the source: the watermark
is compared first, and only a response delivered while the watermark still
equals the ask's own timestamp is returned. -/
def askWaitPoll (st : TaskState) (askTs : Nat) : AskWaitStatus :=
  if st.lastMessageTs ≠ some askTs then
    -- The wake condition holds and the post-wake check throws.
    .throwIgnored
  else
    match st.askResponse with
    | some r => .answered r st.askResponseText st.askResponseImages
    | none => .stillWaiting

/-! ## C1: a `say(partial=true)* say(partial=false)` burst coalesces into
one entry whose timestamp is the first partial call's -/

/-- The per-call arguments of one `say` call of a streaming burst
(`now` is the value `Date.now()` would return at that call). -/
structure SayCall where
  text : Option String := none
  images : Option (List String) := none
  progressStatus : Option String := none
  now : Nat
deriving DecidableEq, Repr

/-- `say(kind, text, images, partial = true)` with default options. -/
def sayPartialCall (c : SayCall) (tag : String) (st : TaskState) :
    Except TaskError TaskState :=
  sayStep st tag c.text c.images (some true) none c.progressStatus {} none c.now

/-- `say(kind, text, images, partial = false)` with default options. -/
def sayFinalCall (c : SayCall) (tag : String) (st : TaskState) :
    Except TaskError TaskState :=
  sayStep st tag c.text c.images (some false) none c.progressStatus {} none c.now

/-- A whole burst: zero or more `say(partial=true)` calls of the same kind
followed by one `say(partial=false)` call. -/
def runSayBurst (st : TaskState) (tag : String) (partials : List SayCall)
    (final : SayCall) : Except TaskError TaskState := do
  let st ← partials.foldlM (fun s c => sayPartialCall c tag s) st
  sayFinalCall final tag st

/-- The entry the first `say(partial=true)` call of a burst appends. -/
def mkPartialSayMessage (tag : String) (c : SayCall) : ClineMessage :=
  { ts := c.now, msgType := .say, tag := tag, text := c.text, images := c.images,
    partialFlag := some true }

/-- In-place effect of one partial update on the trailing entry. -/
def applySayUpdate (m : ClineMessage) (c : SayCall) : ClineMessage :=
  { m with text := c.text, images := c.images, partialFlag := some true,
           progressStatus := c.progressStatus }

lemma updateLastMessage_concat (pre : List ClineMessage) (m : ClineMessage)
    (f : ClineMessage → ClineMessage) :
    updateLastMessage (pre ++ [m]) f = pre ++ [f m] := by
  simp [updateLastMessage]

lemma isUpdatingPreviousPartialSay_concat (pre : List ClineMessage)
    (m : ClineMessage) (tag : String) :
    isUpdatingPreviousPartialSay (pre ++ [m]) tag =
      (m.partialFlag == some true && m.msgType == .say && m.tag == tag) := by
  simp [isUpdatingPreviousPartialSay]

lemma sayPartialCall_fresh (st : TaskState) (tag : String) (c : SayCall)
    (hab : st.abort = false)
    (hfresh : isUpdatingPreviousPartialSay st.clineMessages tag = false) :
    sayPartialCall c tag st =
      .ok { st with lastMessageTs := some c.now,
                    clineMessages := st.clineMessages ++ [mkPartialSayMessage tag c] } := by
  simp [sayPartialCall, sayStep, hab, hfresh, addToClineMessagesMem,
    mkPartialSayMessage]

lemma sayPartialCall_update (st : TaskState) (tag : String) (c : SayCall)
    (pre : List ClineMessage) (m : ClineMessage)
    (hab : st.abort = false)
    (hmsgs : st.clineMessages = pre ++ [m])
    (hp : m.partialFlag = some true) (hty : m.msgType = .say) (htag : m.tag = tag) :
    sayPartialCall c tag st =
      .ok { st with clineMessages := pre ++ [applySayUpdate m c] } := by
  simp [sayPartialCall, sayStep, hab, hmsgs, isUpdatingPreviousPartialSay_concat,
    hp, hty, htag, updateLastMessage_concat, applySayUpdate]

lemma sayFinalCall_update (st : TaskState) (tag : String) (c : SayCall)
    (pre : List ClineMessage) (m : ClineMessage)
    (hab : st.abort = false)
    (hmsgs : st.clineMessages = pre ++ [m])
    (hp : m.partialFlag = some true) (hty : m.msgType = .say) (htag : m.tag = tag) :
    sayFinalCall c tag st =
      .ok { st with lastMessageTs := some m.ts,
                    clineMessages := pre ++
                      [{ m with text := c.text, images := c.images,
                                partialFlag := some false,
                                progressStatus := c.progressStatus }] } := by
  simp [sayFinalCall, sayStep, hab, hmsgs, isUpdatingPreviousPartialSay_concat,
    hp, hty, htag, updateLastMessage_concat]

/-- The trailing partial entry after the first call and `k` further updates. -/
def burstEntry (tag : String) (first : SayCall) (updates : List SayCall) : ClineMessage :=
  updates.foldl applySayUpdate (mkPartialSayMessage tag first)

lemma burstEntry_ts (tag : String) (first : SayCall) (updates : List SayCall) :
    (burstEntry tag first updates).ts = first.now := by
  suffices h : ∀ (m : ClineMessage), (updates.foldl applySayUpdate m).ts = m.ts by
    exact h _
  induction updates with
  | nil => intro m; rfl
  | cons c cs ih => intro m; simpa [applySayUpdate] using ih _

lemma burstEntry_invariant (tag : String) (first : SayCall) (updates : List SayCall) :
    (burstEntry tag first updates).partialFlag = some true ∧
      (burstEntry tag first updates).msgType = .say ∧
      (burstEntry tag first updates).tag = tag := by
  suffices h : ∀ (m : ClineMessage), m.partialFlag = some true → m.msgType = .say →
      m.tag = tag → (updates.foldl applySayUpdate m).partialFlag = some true ∧
        (updates.foldl applySayUpdate m).msgType = .say ∧
        (updates.foldl applySayUpdate m).tag = tag by
    exact h _ rfl rfl rfl
  induction updates with
  | nil => intro m h1 h2 h3; exact ⟨h1, h2, h3⟩
  | cons c cs ih => intro m h1 h2 h3; exact ih _ rfl h2 h3

lemma sayPartialFold_update (tag : String) (updates : List SayCall) :
    ∀ (st : TaskState) (pre : List ClineMessage) (m : ClineMessage),
      st.abort = false → st.clineMessages = pre ++ [m] →
      m.partialFlag = some true → m.msgType = .say → m.tag = tag →
      updates.foldlM (fun s c => sayPartialCall c tag s) st =
        .ok { st with clineMessages := pre ++ [updates.foldl applySayUpdate m] } := by
  induction updates with
  | nil =>
    intro st pre m hab hmsgs hp hty htag
    simp only [List.foldlM_nil, List.foldl_nil, ← hmsgs]
    rfl
  | cons c cs ih =>
    intro st pre m hab hmsgs hp hty htag
    rw [List.foldlM_cons, sayPartialCall_update st tag c pre m hab hmsgs hp hty htag]
    simpa using ih { st with clineMessages := pre ++ [applySayUpdate m c] }
      pre (applySayUpdate m c) hab rfl rfl hty htag

lemma sayBurst_fold (tag : String) (first : SayCall) (updates : List SayCall)
    (st : TaskState) (hab : st.abort = false)
    (hfresh : isUpdatingPreviousPartialSay st.clineMessages tag = false) :
    (first :: updates).foldlM (fun s c => sayPartialCall c tag s) st =
      .ok { st with lastMessageTs := some first.now,
                    clineMessages := st.clineMessages ++ [burstEntry tag first updates] } := by
  rw [List.foldlM_cons, sayPartialCall_fresh st tag first hab hfresh]
  simpa [burstEntry] using
    sayPartialFold_update tag updates
      { st with lastMessageTs := some first.now,
                clineMessages := st.clineMessages ++ [mkPartialSayMessage tag first] }
      st.clineMessages (mkPartialSayMessage tag first) hab rfl rfl rfl rfl

lemma sayFinalCall_fresh (st : TaskState) (tag : String) (c : SayCall)
    (hab : st.abort = false)
    (hfresh : isUpdatingPreviousPartialSay st.clineMessages tag = false) :
    sayFinalCall c tag st =
      .ok { st with lastMessageTs := some c.now,
                    clineMessages := st.clineMessages ++
                      [{ ts := c.now, msgType := .say, tag := tag,
                         text := c.text, images := c.images }] } := by
  simp [sayFinalCall, sayStep, hab, hfresh, addToClineMessagesMem]

/-- C1: for every burst `say(partial=true)* say(partial=false)` of one kind,
started when the log does not already end in a matching partial entry and
the task is not aborted, the UI message log gains exactly one entry; its
timestamp is the one assigned when the first partial entry was appended
(the head of the burst), and finalization leaves that timestamp unchanged
while marking the entry `partial = false`. -/
theorem say_partial_burst_single_entry (st : TaskState) (tag : String)
    (partials : List SayCall) (final : SayCall)
    (hab : st.abort = false)
    (hfresh : isUpdatingPreviousPartialSay st.clineMessages tag = false) :
    ∃ (st' : TaskState) (m : ClineMessage),
      runSayBurst st tag partials final = .ok st' ∧
      st'.clineMessages = st.clineMessages ++ [m] ∧
      m.msgType = .say ∧ m.tag = tag ∧
      m.text = final.text ∧ m.images = final.images ∧
      m.ts = (partials.head?.map SayCall.now).getD final.now ∧
      (partials ≠ [] → m.partialFlag = some false) := by
  cases partials with
  | nil =>
    refine ⟨{ st with
              lastMessageTs := some final.now,
              clineMessages := st.clineMessages ++
                [{ ts := final.now, msgType := .say, tag := tag,
                   text := final.text, images := final.images }] },
      { ts := final.now, msgType := .say, tag := tag,
        text := final.text, images := final.images },
      ?_, rfl, rfl, rfl, rfl, rfl, rfl, by simp⟩
    show sayFinalCall final tag st = _
    exact sayFinalCall_fresh st tag final hab hfresh
  | cons first updates =>
    obtain ⟨hp, hty, htag⟩ := burstEntry_invariant tag first updates
    refine ⟨{ st with
              lastMessageTs := some (burstEntry tag first updates).ts,
              clineMessages := st.clineMessages ++
                [{ (burstEntry tag first updates) with
                     text := final.text, images := final.images,
                     partialFlag := some false,
                     progressStatus := final.progressStatus }] },
      { (burstEntry tag first updates) with
          text := final.text, images := final.images, partialFlag := some false,
          progressStatus := final.progressStatus },
      ?_, rfl, hty, htag, rfl, rfl, ?_, fun _ => rfl⟩
    · rw [runSayBurst, sayBurst_fold tag first updates st hab hfresh]
      show sayFinalCall final tag _ = _
      rw [sayFinalCall_update
        { st with
          lastMessageTs := some first.now,
          clineMessages := st.clineMessages ++ [burstEntry tag first updates] }
        tag final st.clineMessages (burstEntry tag first updates) hab rfl hp hty htag]
    · simpa using burstEntry_ts tag first updates

/-- C1 witness: a concrete two-partial burst on the empty task state. -/
theorem say_partial_burst_single_entry_witness :
    (({} : TaskState).abort = false ∧
      isUpdatingPreviousPartialSay ({} : TaskState).clineMessages "text" = false) ∧
    ∃ (st' : TaskState) (m : ClineMessage),
      runSayBurst {} "text"
          [{ text := some "a", now := 100 }, { text := some "ab", now := 150 }]
          { text := some "abc", now := 200 } = .ok st' ∧
      st'.clineMessages = ({} : TaskState).clineMessages ++ [m] ∧
      m.msgType = .say ∧ m.tag = "text" ∧
      m.text = some "abc" ∧ m.images = none ∧
      m.ts = (([{ text := some "a", now := 100 },
                 { text := some "ab", now := 150 }] :
                List SayCall).head?.map SayCall.now).getD 200 ∧
      (([{ text := some "a", now := 100 }, { text := some "ab", now := 150 }] :
          List SayCall) ≠ [] → m.partialFlag = some false) :=
  ⟨⟨rfl, rfl⟩, say_partial_burst_single_entry {} "text"
    [{ text := some "a", now := 100 }, { text := some "ab", now := 150 }]
    { text := some "abc", now := 200 } rfl rfl⟩

/-- C4: for every ask or say kind and every argument combination, if the
abort flag is already set then `ask` throws at once — before touching the
log or reaching the `pWaitFor` suspension (the result is `.thrown` with
the state unchanged, never `.waiting`) — and `say` likewise returns the
abort error without appending anything. -/
theorem ask_say_abort_throws (st : TaskState) (tag : String)
    (text : Option String) (images : Option (List String))
    (partialArg : Option Bool) (checkpoint progressStatus : Option String)
    (opts : SayOptions) (cc : Option ContextCondense) (isProtected : Option Bool)
    (now : Nat) (hab : st.abort = true) :
    askStep st tag text partialArg progressStatus isProtected now =
        .thrown st .aborted ∧
      sayStep st tag text images partialArg checkpoint progressStatus opts cc now =
        .error .aborted := by
  constructor <;> simp [askStep, sayStep, hab]

/-- C4 witness: a concrete aborted state and a concrete `ask`/`say` call. -/
theorem ask_say_abort_throws_witness :
    ({ abort := true } : TaskState).abort = true ∧
    (askStep { abort := true } "followup" (some "q") none none none 7 =
        .thrown { abort := true } .aborted ∧
      sayStep { abort := true } "text" (some "t") none none none none {} none 7 =
        .error .aborted) :=
  ⟨rfl, ask_say_abort_throws { abort := true } "followup" (some "q") none none none
    none {} none none 7 rfl⟩

/-- C8: one poll of the non-partial ask's wait: the ask is abandoned with
the ignored-ask error exactly when the task's last-message watermark no
longer equals the ask's own timestamp, and it returns a response exactly
when a response was delivered while the watermark still equals the ask's
timestamp.  (The wait itself is `pWaitFor` over exactly this poll.) -/
theorem ask_wait_watermark (st : TaskState) (askTs : Nat) :
    (askWaitPoll st askTs = .throwIgnored ↔ st.lastMessageTs ≠ some askTs) ∧
    (∀ (r : ClineAskResponse) (t : Option String) (i : Option (List String)),
      askWaitPoll st askTs = .answered r t i ↔
        st.lastMessageTs = some askTs ∧ st.askResponse = some r ∧
          t = st.askResponseText ∧ i = st.askResponseImages) := by
  constructor
  · by_cases h : st.lastMessageTs = some askTs
    · cases hr : st.askResponse <;> simp [askWaitPoll, h, hr]
    · simp [askWaitPoll, h]
  · intro r t i
    by_cases h : st.lastMessageTs = some askTs
    · cases hr : st.askResponse <;> simp [askWaitPoll, h, hr, eq_comm]
    · simp [askWaitPoll, h]

/-! ## Data model: API-facing conversation history (`ApiMessage`) -/

/-- Message role. -/
inductive Role where
  | user
  | assistant
deriving DecidableEq, Repr

/-- One item of an array-valued `tool_result` content. -/
inductive TRItem where
  | text (s : String)
  | image (source : String)
deriving DecidableEq, Repr

/-- `tool_result.content`: a plain string or an array of items. -/
inductive ToolResultContent where
  | str (s : String)
  | items (l : List TRItem)
deriving DecidableEq, Repr

/-- A content block of an API message (Anthropic `ContentBlockParam`). -/
inductive ContentBlock where
  | text (text : String)
  | image (source : String)
  | toolUse (id : String) (name : String) (input : List (String × String))
  | toolResult (toolUseId : String) (content : ToolResultContent)
deriving DecidableEq, Repr

/-- `ApiMessage.content`: a plain string or an array of blocks (the source
tests `Array.isArray(message.content)`). -/
inductive MessageContent where
  | str (s : String)
  | blocks (bs : List ContentBlock)
deriving DecidableEq, Repr

/-- One turn of `Task.apiConversationHistory` (role, content, timestamp
stamped by `addToApiConversationHistory`). -/
structure ApiMessage where
  role : Role
  content : MessageContent
  ts : Option Nat := none
deriving DecidableEq, Repr

/-! ## C9: persistence failures are caught and never propagate -/

/-- `saveApiConversationHistory`: the persistence write wrapped in
`try/catch`; a failure is logged with `console.error` and never rethrown.
The fallible persistence layer (`saveApiMessages`) is the `persist`
argument; the returned list is the log of caught errors. -/
def saveApiConversationHistoryCaught
    (persist : List ApiMessage → Except String Unit)
    (history : List ApiMessage) : List String :=
  match persist history with
  | .ok _ => []
  | .error e => ["Failed to save API conversation history: " ++ e]

/-- `saveClineMessages`: `saveTaskMessages` + `taskMetadata` +
`updateTaskHistory`, all inside one `try/catch`; a failure is logged and
never rethrown. -/
def saveClineMessagesCaught
    (persist : List ClineMessage → Except String Unit)
    (messages : List ClineMessage) : List String :=
  match persist messages with
  | .ok _ => []
  | .error e => ["Failed to save Roo messages: " ++ e]

/-- The two canonical in-memory logs owned by a `Task`. -/
structure ConversationStore where
  apiConversationHistory : List ApiMessage := []
  clineMessages : List ClineMessage := []
deriving DecidableEq, Repr

/-- `addToApiConversationHistory`: stamp the message with `Date.now()`,
push it onto the in-memory log, then save (errors caught). -/
def addToApiConversationHistoryOp
    (persist : List ApiMessage → Except String Unit)
    (store : ConversationStore) (message : ApiMessage) (now : Nat) :
    ConversationStore × List String :=
  let messageWithTs := { message with ts := some now }
  let store := { store with
    apiConversationHistory := store.apiConversationHistory ++ [messageWithTs] }
  (store, saveApiConversationHistoryCaught persist store.apiConversationHistory)

/-- `overwriteApiConversationHistory`. -/
def overwriteApiConversationHistoryOp
    (persist : List ApiMessage → Except String Unit)
    (store : ConversationStore) (newHistory : List ApiMessage) :
    ConversationStore × List String :=
  let store := { store with apiConversationHistory := newHistory }
  (store, saveApiConversationHistoryCaught persist store.apiConversationHistory)

/-- `addToClineMessages` (persistence side; the webview post and telemetry
capture are external fire-and-forget collaborators). -/
def addToClineMessagesOp
    (persist : List ClineMessage → Except String Unit)
    (store : ConversationStore) (message : ClineMessage) :
    ConversationStore × List String :=
  let store := { store with clineMessages := store.clineMessages ++ [message] }
  (store, saveClineMessagesCaught persist store.clineMessages)

/-- `overwriteClineMessages`. -/
def overwriteClineMessagesOp
    (persist : List ClineMessage → Except String Unit)
    (store : ConversationStore) (newMessages : List ClineMessage) :
    ConversationStore × List String :=
  let store := { store with clineMessages := newMessages }
  (store, saveClineMessagesCaught persist store.clineMessages)

/-- C9: every conversation-log save path catches a failing persistence
write: the operations are total (they return, never raise), the resulting
in-memory store is the same whatever the persistence outcome — two
arbitrary persistence functions yield identical stores — the in-memory
log is already updated when the write is attempted, and a failing write
is logged. -/
theorem conversation_save_failure_isolated
    (pa pa' : List ApiMessage → Except String Unit)
    (pu pu' : List ClineMessage → Except String Unit)
    (store : ConversationStore) (am : ApiMessage) (cm : ClineMessage)
    (hist : List ApiMessage) (msgs : List ClineMessage) (now : Nat) :
    ((addToApiConversationHistoryOp pa store am now).1 =
        (addToApiConversationHistoryOp pa' store am now).1 ∧
      (addToApiConversationHistoryOp pa store am now).1.apiConversationHistory =
        store.apiConversationHistory ++ [{ am with ts := some now }] ∧
      (overwriteApiConversationHistoryOp pa store hist).1 =
        (overwriteApiConversationHistoryOp pa' store hist).1 ∧
      (overwriteApiConversationHistoryOp pa store hist).1.apiConversationHistory =
        hist) ∧
    ((addToClineMessagesOp pu store cm).1 = (addToClineMessagesOp pu' store cm).1 ∧
      (addToClineMessagesOp pu store cm).1.clineMessages =
        store.clineMessages ++ [cm] ∧
      (overwriteClineMessagesOp pu store msgs).1 =
        (overwriteClineMessagesOp pu' store msgs).1 ∧
      (overwriteClineMessagesOp pu store msgs).1.clineMessages = msgs) ∧
    (∀ e, pa (store.apiConversationHistory ++ [{ am with ts := some now }]) =
        .error e →
      (addToApiConversationHistoryOp pa store am now).2 =
        ["Failed to save API conversation history: " ++ e]) ∧
    (∀ e, pu (store.clineMessages ++ [cm]) = .error e →
      (addToClineMessagesOp pu store cm).2 =
        ["Failed to save Roo messages: " ++ e]) := by
  refine ⟨⟨rfl, rfl, rfl, rfl⟩, ⟨rfl, rfl, rfl, rfl⟩, ?_, ?_⟩
  · intro e he
    simp [addToApiConversationHistoryOp, saveApiConversationHistoryCaught, he]
  · intro e he
    simp [addToClineMessagesOp, saveClineMessagesCaught, he]

/-! ## C2: the resume-from-history user-content preparation
(`resumeTaskFromHistory`, lines 1138–1255 of `Task.ts`) -/

/-- `Object.entries(block.input).map(([k, v]) => ...<k>\n v \n</k>...).join("\n")`. -/
def toolInputAsXml (input : List (String × String)) : String :=
  String.intercalate "\n" (input.map fun kv =>
    "<" ++ kv.1 ++ ">\n" ++ kv.2 ++ "\n</" ++ kv.1 ++ ">")

/-- The text of one array item of a tool_result, when it is a text item. -/
def trItemText? : TRItem → Option String
  | .text s => some s
  | .image _ => none

/-- `contentAsTextBlocks.map(item => item.text).join("\n\n")`: array
content is filtered to its text items; string content is wrapped as one
text block. -/
def toolResultText : ToolResultContent → String
  | .str s => s
  | .items l => String.intercalate "\n\n" (l.filterMap trItemText?)

/-- The per-block rewrite of `conversationWithoutToolBlocks` (lines
1143–1167): `tool_use` becomes a text block holding the call as XML,
`tool_result` becomes a text block holding the rendered result; text and
image blocks pass through.  `findName` stands for
`findToolName(block.tool_use_id, existingApiConversationHistory)` from
`integrations/misc/export-markdown` (not part of the staged sources); it
only affects the rendered text, never the shape of a block. -/
def convertBlock (findName : String → String) : ContentBlock → ContentBlock
  | .toolUse _ name input =>
      .text ("<" ++ name ++ ">\n" ++ toolInputAsXml input ++ "\n</" ++ name ++ ">")
  | .toolResult toolUseId content =>
      .text ("[" ++ findName toolUseId ++ " Result]\n\n" ++ toolResultText content)
  | b => b

/-- Content rewrite: only array content is mapped
(`if (Array.isArray(message.content))`); string content is unchanged. -/
def convertMessageContent (findName : String → String) :
    MessageContent → MessageContent
  | .blocks bs => .blocks (bs.map (convertBlock findName))
  | .str s => .str s

/-- One message of `conversationWithoutToolBlocks`. -/
def convertMessage (findName : String → String) (m : ApiMessage) : ApiMessage :=
  { m with content := convertMessageContent findName m.content }

/-- `Array.isArray(content) ? content : [{ type: "text", text: content }]`. -/
def contentToBlocks : MessageContent → List ContentBlock
  | .str s => [.text s]
  | .blocks bs => bs

/-- `block.type === "tool_use"`. -/
def isToolUseBlock : ContentBlock → Bool
  | .toolUse _ _ _ => true
  | _ => false

/-- `block.type === "tool_result"`. -/
def isToolResultBlock : ContentBlock → Bool
  | .toolResult _ _ => true
  | _ => false

/-- `result.tool_use_id` of a tool_result block. -/
def toolResultId? : ContentBlock → Option String
  | .toolResult id _ => some id
  | _ => none

/-- The interrupted-task message used for synthesized tool responses. -/
def interruptedText : String :=
  "Task was interrupted before this tool call could be completed."

/-- The synthesized interrupted tool response for one tool_use block. -/
def interruptedToolResponse : ContentBlock → Option ContentBlock
  | .toolUse id _ _ => some (.toolResult id (.str interruptedText))
  | _ => none

/-- `resumeTaskFromHistory`'s preparation of the API history and the old
user content (lines 1138–1255): first every tool_use / tool_result block
is rewritten to text (`conversationWithoutToolBlocks`), then the last
message is examined — an assistant last message with tool_use blocks
yields synthesized interrupted tool responses; a user last message is
popped and completed with responses for the previous assistant turn's
unanswered tool_use blocks; an empty history is an invariant violation.
Returns (modifiedApiConversationHistory, modifiedOldUserContent). -/
def resumePrepare (findName : String → String) (existing : List ApiMessage) :
    Except String (List ApiMessage × List ContentBlock) :=
  let conv := existing.map (convertMessage findName)
  match conv.getLast? with
  | none => .error "Unexpected: No existing API conversation history"
  | some lastMessage =>
    match lastMessage.role with
    | .assistant =>
      let content := contentToBlocks lastMessage.content
      let hasToolUse := content.any isToolUseBlock
      if hasToolUse then
        let toolUseBlocks := content.filter isToolUseBlock
        let toolResponses := toolUseBlocks.filterMap interruptedToolResponse
        .ok (conv, toolResponses)
      else
        .ok (conv, [])
    | .user =>
      let previousAssistantMessage := conv.dropLast.getLast?
      let existingUserContent := contentToBlocks lastMessage.content
      match previousAssistantMessage with
      | some prev =>
        if prev.role == .assistant then
          let assistantContent := contentToBlocks prev.content
          let toolUseBlocks := assistantContent.filter isToolUseBlock
          if toolUseBlocks.length > 0 then
            let existingToolResults := existingUserContent.filter isToolResultBlock
            let missingToolResponses := toolUseBlocks.filterMap (fun b =>
              match b with
              | .toolUse id _ _ =>
                  if existingToolResults.any (fun r => toolResultId? r == some id)
                  then none
                  else some (ContentBlock.toolResult id (.str interruptedText))
              | _ => none)
            .ok (conv.dropLast, existingUserContent ++ missingToolResponses)
          else
            .ok (conv.dropLast, existingUserContent)
        else
          .ok (conv.dropLast, existingUserContent)
      | none =>
        .ok (conv.dropLast, existingUserContent)

/-- Spec-side reading of C2's premise on the raw saved history: the last
persisted turn is an assistant turn containing a tool-use block (which,
with no later user turn, is necessarily unanswered). -/
def hasUnansweredTrailingToolUse (existing : List ApiMessage) : Bool :=
  match existing.getLast? with
  | some m => m.role == .assistant && (contentToBlocks m.content).any isToolUseBlock
  | none => false

/-- How many tool_result blocks (interrupted or otherwise) end up in the
user content `resumeTaskFromHistory` prepares. -/
def resumeSynthesizedToolResultCount (findName : String → String)
    (existing : List ApiMessage) : Nat :=
  match resumePrepare findName existing with
  | .ok r => (r.2.filter isToolResultBlock).length
  | .error _ => 0

/-- A saved history whose last assistant turn holds an unanswered tool use. -/
def resumeDemoHistory : List ApiMessage :=
  [ { role := .user, content := .str "task" },
    { role := .assistant,
      content := .blocks [.toolUse "toolu_01" "read_file" [("path", "a.txt")]] } ]

/-- C2 counterexample: on a history whose last assistant turn contains an
unanswered tool-use block, the resume path synthesizes zero tool results,
not one per unanswered tool use — the tool_use block was rewritten into a
text block (lines 1141–1173) before the unanswered-tool-use check ran, so
the check never fires. -/
theorem resume_interrupted_synthesis_cex :
    hasUnansweredTrailingToolUse resumeDemoHistory = true ∧
      resumeSynthesizedToolResultCount (fun _ => "read_file") resumeDemoHistory = 0 :=
  ⟨rfl, rfl⟩

lemma convertBlock_not_toolUse (findName : String → String) (b : ContentBlock) :
    isToolUseBlock (convertBlock findName b) = false := by
  cases b <;> rfl

lemma convertBlock_not_toolResult (findName : String → String) (b : ContentBlock) :
    isToolResultBlock (convertBlock findName b) = false := by
  cases b <;> rfl

lemma contentToBlocks_convert_clean (findName : String → String)
    (c : MessageContent) :
    ∀ b ∈ contentToBlocks (convertMessageContent findName c),
      isToolUseBlock b = false ∧ isToolResultBlock b = false := by
  cases c with
  | str s =>
    intro b hb
    simp [convertMessageContent, contentToBlocks] at hb
    subst hb
    exact ⟨rfl, rfl⟩
  | blocks bs =>
    intro b hb
    simp [convertMessageContent, contentToBlocks] at hb
    obtain ⟨a, _, rfl⟩ := hb
    exact ⟨convertBlock_not_toolUse findName a, convertBlock_not_toolResult findName a⟩

/-- C2 amended: because the resume path rewrites every tool_use and
tool_result block into a text block before the unanswered-tool-use check,
the user content it prepares never contains any tool_result block — in
particular no interrupted tool responses are synthesized, for any saved
history. -/
theorem resume_prepares_no_tool_results (findName : String → String)
    (existing hist : List ApiMessage) (uc : List ContentBlock)
    (h : resumePrepare findName existing = .ok (hist, uc)) :
    uc.filter isToolResultBlock = [] := by
  simp only [resumePrepare] at h
  split at h
  · exact absurd h (by simp)
  · rename_i lastMessage hlast
    have horig : ∃ orig, existing.getLast? = some orig ∧
        lastMessage = convertMessage findName orig := by
      rw [List.getLast?_map] at hlast
      cases ho : existing.getLast? with
      | none => rw [ho] at hlast; exact absurd hlast (by simp)
      | some orig => rw [ho] at hlast; exact ⟨orig, rfl, by simpa using hlast.symm⟩
    obtain ⟨orig, horig, rfl⟩ := horig
    have hclean : ∀ b ∈ contentToBlocks (convertMessage findName orig).content,
        isToolUseBlock b = false ∧ isToolResultBlock b = false :=
      contentToBlocks_convert_clean findName orig.content
    have hfilter : (contentToBlocks (convertMessage findName orig).content).filter
        isToolResultBlock = [] :=
      List.filter_eq_nil_iff.mpr (fun b hb => by simp [(hclean b hb).2])
    split at h
    -- assistant last message
    · have hno : (contentToBlocks (convertMessage findName orig).content).any
          isToolUseBlock = false :=
        List.any_eq_false.mpr (fun b hb => by simp [(hclean b hb).1])
      rw [hno] at h
      simp only [Bool.false_eq_true, if_false, Except.ok.injEq, Prod.mk.injEq] at h
      rw [← h.2]
      rfl
    -- user last message
    · split at h
      -- a previous message exists
      · rename_i prev hprev
        have hprevclean : ∀ b ∈ contentToBlocks prev.content,
            isToolUseBlock b = false := by
          rw [← List.map_dropLast, List.getLast?_map] at hprev
          cases hpo : existing.dropLast.getLast? with
          | none => rw [hpo] at hprev; exact absurd hprev (by simp)
          | some porig =>
            rw [hpo] at hprev
            obtain rfl : prev = convertMessage findName porig := by
              simpa using hprev.symm
            intro b hb
            exact (contentToBlocks_convert_clean findName porig.content b hb).1
        have htub : (contentToBlocks prev.content).filter isToolUseBlock = [] :=
          List.filter_eq_nil_iff.mpr (fun b hb => by simp [hprevclean b hb])
        split at h
        -- prev is an assistant message
        · rw [htub] at h
          simp only [List.length_nil, gt_iff_lt, lt_self_iff_false, if_false,
            Except.ok.injEq, Prod.mk.injEq] at h
          rw [← h.2]; exact hfilter
        -- prev is not an assistant message
        · simp only [Except.ok.injEq, Prod.mk.injEq] at h
          rw [← h.2]; exact hfilter
      -- no previous message
      · simp only [Except.ok.injEq, Prod.mk.injEq] at h
        rw [← h.2]; exact hfilter

/-- C2 amended witness: the amended theorem applied to a one-turn history. -/
theorem resume_prepares_no_tool_results_witness :
    resumePrepare (fun _ => "tool") [{ role := .user, content := .str "hi" }] =
        .ok ([], [ContentBlock.text "hi"]) ∧
      ([ContentBlock.text "hi"] : List ContentBlock).filter isToolResultBlock = [] :=
  ⟨rfl, resume_prepares_no_tool_results (fun _ => "tool")
    [{ role := .user, content := .str "hi" }] [] [ContentBlock.text "hi"] rfl⟩

/-! ## C3: the rate-limit delay (`attemptApiRequest`, lines 2026–2049) -/

/-- The rate-limit delay in whole seconds, exactly as computed by
`attemptApiRequest`:

* `Task.lastGlobalApiRequestTime` is a process-wide static, shared by all
  task instances; when it is unset (or `0`, which JS reads as falsy) the
  delay is `0`;
* otherwise `Math.ceil(Math.max(0, rateLimit * 1000 - (now - t)) / 1000)`,
  with `rateLimit = apiConfiguration?.rateLimitSeconds || 0`.

All quantities are integral milliseconds well below 2^53, so the
JavaScript float division by 1000 followed by `Math.ceil` agrees with the
exact integer ceiling `(ms + 999) / 1000` used here. -/
def rateLimitDelaySeconds (lastGlobalApiRequestTime : Option Nat) (now : Nat)
    (rateLimitSeconds : Nat) : Nat :=
  match lastGlobalApiRequestTime with
  | none => 0
  | some t =>
    if t = 0 then 0
    else
      let timeSinceLastRequest : Int := (now : Int) - (t : Int)
      let delayMs : Int := max 0 ((rateLimitSeconds : Int) * 1000 - timeSinceLastRequest)
      (delayMs.toNat + 999) / 1000

/-- The identity of one `Task` instance (`taskId`, `instanceId`); only used
to state that the computed delay does not depend on which instance asks. -/
structure TaskInstanceId where
  taskId : String
  instanceId : String
deriving DecidableEq, Repr

/-- The delay as observed by one task instance: both a parent task and a
freshly created sub-task read the same process-wide static timestamp and
the same provider-state configuration, so the instance identity is dead. -/
def taskRateLimitDelay (_task : TaskInstanceId) (lastGlobalApiRequestTime : Option Nat)
    (rateLimitSecondsCfg : Option Nat) (now : Nat) : Nat :=
  rateLimitDelaySeconds lastGlobalApiRequestTime now (rateLimitSecondsCfg.getD 0)

lemma nat_ceil_div_1000 (x : Nat) :
    (((x + 999) / 1000 : Nat) : ℤ) = ⌈(x : ℚ) / 1000⌉ := by
  have hdm := Nat.div_add_mod (x + 999) 1000
  have hmlt : (x + 999) % 1000 < 1000 := Nat.mod_lt _ (by norm_num)
  set q : Nat := (x + 999) / 1000 with hq
  have hA : 1000 * q ≤ x + 999 := by omega
  have hx_le : x ≤ 1000 * q := by omega
  rw [eq_comm, Int.ceil_eq_iff]
  constructor
  · have h : ((1000 * q : ℕ) : ℚ) ≤ ((x + 999 : ℕ) : ℚ) := by exact_mod_cast hA
    push_cast at h ⊢
    have hx : ((q : ℚ) - 1) < (x : ℚ) / 1000 := by
      rw [lt_div_iff₀ (by norm_num : (0:ℚ) < 1000)]
      linarith
    linarith
  · have h : ((x : ℕ) : ℚ) ≤ ((1000 * q : ℕ) : ℚ) := by exact_mod_cast hx_le
    push_cast at h ⊢
    rw [div_le_iff₀ (by norm_num : (0:ℚ) < 1000)]
    linarith

/-- C3: for every request with the process-wide timestamp set (to a
nonzero value `t`), the rate-limit delay equals
`max(0, rateLimitSeconds*1000 − (now − t))` milliseconds rounded up to
the nearest whole second; and since the timestamp is a single static
shared by parent tasks and sub-tasks and the configuration comes from the
shared provider state, two distinct task instances observing the same
timestamp at the same instant compute identical delays. -/
theorem rate_limit_delay_formula (t now r : Nat) (cfg : Option Nat)
    (parent child : TaskInstanceId) (ht : 0 < t) :
    ((rateLimitDelaySeconds (some t) now r : Nat) : ℤ) =
        ⌈(max 0 ((r : ℚ) * 1000 - ((now : ℚ) - (t : ℚ)))) / 1000⌉ ∧
      taskRateLimitDelay parent (some t) cfg now =
        taskRateLimitDelay child (some t) cfg now := by
  refine ⟨?_, rfl⟩
  have ht0 : ¬ (t = 0) := Nat.pos_iff_ne_zero.mp ht
  simp only [rateLimitDelaySeconds, ht0, if_false]
  set e : ℤ := (r : ℤ) * 1000 - ((now : ℤ) - (t : ℤ)) with he
  have hnn : (0 : ℤ) ≤ max 0 e := le_max_left 0 e
  rw [nat_ceil_div_1000]
  have hcast : (((max 0 e).toNat : ℚ)) =
      max 0 ((r : ℚ) * 1000 - ((now : ℚ) - (t : ℚ))) := by
    have h1 : (((max 0 e).toNat : ℤ) : ℚ) = ((max 0 e : ℤ) : ℚ) := by
      rw [Int.toNat_of_nonneg hnn]
    calc (((max 0 e).toNat : ℚ)) = (((max 0 e).toNat : ℤ) : ℚ) := by push_cast; ring
      _ = ((max 0 e : ℤ) : ℚ) := h1
      _ = max 0 ((r : ℚ) * 1000 - ((now : ℚ) - (t : ℚ))) := by
            rw [he]; push_cast; ring_nf
  rw [hcast]

/-- C3 witness: `t = 5000`, `now = 6000`, `rateLimitSeconds = 10` gives a
9-second delay for a parent and a sub-task alike. -/
theorem rate_limit_delay_formula_witness :
    0 < 5000 ∧
    (((rateLimitDelaySeconds (some 5000) 6000 10 : Nat) : ℤ) =
        ⌈(max 0 ((10 : ℚ) * 1000 - ((6000 : ℚ) - (5000 : ℚ)))) / 1000⌉ ∧
      taskRateLimitDelay { taskId := "parent", instanceId := "p1" } (some 5000)
          (some 10) 6000 =
        taskRateLimitDelay { taskId := "child", instanceId := "c1" } (some 5000)
          (some 10) 6000) :=
  ⟨by norm_num,
    rate_limit_delay_formula 5000 6000 10 (some 10)
      { taskId := "parent", instanceId := "p1" }
      { taskId := "child", instanceId := "c1" } (by norm_num)⟩

/-! ## C5: the boolean one round of `recursivelyMakeClineRequests`
returns (lines 1843–1911) -/

/-- The loop state the tail of a round touches. -/
structure LoopState where
  apiConversationHistory : List ApiMessage := []
  clineMessages : List ClineMessage := []
  userMessageContent : List ContentBlock := []
  consecutiveMistakeCount : Nat := 0
deriving DecidableEq, Repr

/-- `formatResponse.noToolsUsed()` (prompt text from `core/prompts`, not
among the staged sources; its exact wording is irrelevant to the claims). -/
def noToolsUsedText : String :=
  "[ERROR] You did not use a tool in your previous response! Please retry with a tool use."

/-- The error `say` recorded on an empty assistant response (line 1890). -/
def emptyResponseErrorText : String :=
  "Unexpected API Response: The language model did not provide any assistant messages. This may indicate an issue with the API or the model's output."

/-- How the body of one round ended. -/
inductive RoundCompletion where
  /-- an exception reached the round's outer `try/catch`: the abort
  re-throw at line 1798 after a mid-stream failure or cancellation, a
  throwing `ask`/`say`, or any other per-round exception. -/
  | threw
  /-- the stream was consumed to completion; `assistantMessage` is the
  accumulated assistant text, `didToolUse` whether some parsed content
  block is a tool_use, and `recResult` the boolean the recursive call
  `recursivelyMakeClineRequests(this.userMessageContent)` returns (it is
  only consulted when the assistant message is non-empty). -/
  | completed (assistantMessage : String) (didToolUse : Bool) (recResult : Bool)
deriving DecidableEq, Repr

/-- Lines 1843–1911 of `recursivelyMakeClineRequests`:
`let didEndLoop = false`; a non-empty assistant message is persisted as
the assistant turn and `didEndLoop` takes the recursive call's value
(after a missing tool use pushes the no-tool notice and bumps the mistake
counter); an empty assistant message records an error `say` and a
`Failure: ...` assistant turn and leaves `didEndLoop` at `false`
(`return didEndLoop // Will always be false for now.`); the enclosing
`catch` returns `true`. -/
def finishRequestRound (st : LoopState) (now : Nat) :
    RoundCompletion → Bool × LoopState
  | .threw => (true, st)
  | .completed assistantMessage didToolUse recResult =>
    if assistantMessage.length > 0 then
      let st : LoopState := { st with
        apiConversationHistory := st.apiConversationHistory ++
          [{ role := .assistant, content := .blocks [.text assistantMessage],
             ts := some now }] }
      let st : LoopState := if didToolUse then st else
        { st with
          userMessageContent := st.userMessageContent ++ [.text noToolsUsedText],
          consecutiveMistakeCount := st.consecutiveMistakeCount + 1 }
      (recResult, st)
    else
      let st : LoopState := { st with
        clineMessages := st.clineMessages ++
          [{ ts := now, msgType := .say, tag := "error",
             text := some emptyResponseErrorText }] }
      let st : LoopState := { st with
        apiConversationHistory := st.apiConversationHistory ++
          [{ role := .assistant,
             content := .blocks [.text "Failure: I did not provide a response."],
             ts := some now }] }
      (false, st)

/-- C5 counterexample: a round whose assistant content is entirely empty
records the error turn but returns `false` — the loop continues — where
the claim says such a round returns `true` and ends the task. -/
theorem request_loop_empty_response_cex :
    (finishRequestRound {} 1000 (.completed "" false false)).1 = false ∧
      (finishRequestRound {} 1000 (.completed "" false false)).2.clineMessages =
        [{ ts := 1000, msgType := .say, tag := "error",
             text := some emptyResponseErrorText }] :=
  ⟨rfl, rfl⟩

/-- C5 amended: the round body returns `true` exactly when an
unrecoverable per-round exception occurred; an entirely empty assistant
response records an error turn (and a failure assistant turn) and returns
`false`, so the outer loop continues; otherwise the returned boolean is
the value propagated from the recursive next round. -/
theorem request_loop_round_result (st : LoopState) (now : Nat)
    (a : String) (didToolUse recResult : Bool) :
    (finishRequestRound st now .threw).1 = true ∧
    (a.length > 0 →
      (finishRequestRound st now (.completed a didToolUse recResult)).1 = recResult) ∧
    (a.length = 0 →
      (finishRequestRound st now (.completed a didToolUse recResult)).1 = false ∧
      (finishRequestRound st now (.completed a didToolUse recResult)).2.clineMessages =
        st.clineMessages ++
          [{ ts := now, msgType := .say, tag := "error",
             text := some emptyResponseErrorText }]) := by
  refine ⟨rfl, ?_, ?_⟩
  · intro h
    simp [finishRequestRound, h]
  · intro h
    simp [finishRequestRound, h]

/-! ## C6: suppression of the previous-response continuity hint after a
condensation (`attemptApiRequest`, lines 2085–2162) -/

/-- The continuity part of `ApiHandlerCreateMessageMetadata`. -/
structure RequestMetadata where
  previousResponseId : Option String := none
  suppressPreviousResponseId : Bool := false
deriving DecidableEq, Repr

/-- One `attemptApiRequest` call as far as the continuity hint is
concerned: whether `truncateConversationIfNeeded` produced a summary
during this call (`condensed`), and the `previous_response_id` that the
look-up over `clineMessages` would yield (`stored`; already `none` when
the model id does not start with `gpt-5` or no id was persisted — the
source guards the look-up with `modelId.startsWith("gpt-5")`). -/
structure PrevIdRound where
  condensed : Bool
  stored : Option String
deriving DecidableEq, Repr

/-- Lines 2085–2162 of one `attemptApiRequest` call: a successful
condensation sets `skipPrevResponseIdOnce`; the stored id is attached
only when the flag is clear; `suppressPreviousResponseId` is sent exactly
when the flag is set; and the flag is reset right after being applied, so
it affects only the immediate next outbound request.  Returns the
metadata sent with this call's request and the flag as left for the next
call. -/
def applyPrevResponseIdPolicy (condensed : Bool) (stored : Option String)
    (skipFlagIn : Bool) : RequestMetadata × Bool :=
  let skip := if condensed then true else skipFlagIn
  let previousResponseId := if skip then none else stored
  ({ previousResponseId := previousResponseId,
     suppressPreviousResponseId := skip }, false)

/-- The requests of successive `attemptApiRequest` calls, threading
`skipPrevResponseIdOnce` (initialized to `false` at construction). -/
def runPrevIdRounds (skipFlag : Bool) : List PrevIdRound → List RequestMetadata
  | [] => []
  | r :: rest =>
    let step := applyPrevResponseIdPolicy r.condensed r.stored skipFlag
    step.1 :: runPrevIdRounds step.2 rest

/-- What C6 predicts for each round: the request transmitted right after a
condensation (the one the same call sends) suppresses the hint and omits
the id; every other request carries the stored id. -/
def expectedPrevIdMetadata (r : PrevIdRound) : RequestMetadata :=
  { previousResponseId := if r.condensed then none else r.stored,
    suppressPreviousResponseId := r.condensed }

/-- C6: over any run of requests starting from a clear flag, the request
transmitted by a condensing round — the first outbound request after the
condensation — suppresses the continuity hint and carries no
previous-response-id, and the flag is consumed by exactly that one
request: the trace is pointwise `expectedPrevIdMetadata`, so every
non-condensing later round again includes the stored hint, whatever
happened before. -/
theorem condense_suppresses_exactly_one_request (rounds : List PrevIdRound) :
    runPrevIdRounds false rounds = rounds.map expectedPrevIdMetadata := by
  induction rounds with
  | nil => rfl
  | cons r rest ih =>
    cases hr : r.condensed <;>
      simp [runPrevIdRounds, applyPrevResponseIdPolicy, expectedPrevIdMetadata, hr, ih]

/-! ## C7: the first-chunk auto-retry delay (`attemptApiRequest`,
lines 2173–2231) -/

/-- `const MAX_EXPONENTIAL_BACKOFF_SECONDS = 600 // 10 minutes`. -/
def MAX_EXPONENTIAL_BACKOFF_SECONDS : Nat := 600

/-- `const baseDelay = requestDelaySeconds || 5` (JS falsy: absent or 0
gives 5). -/
def retryBaseDelay (requestDelaySeconds : Option Nat) : Nat :=
  match requestDelaySeconds with
  | none => 5
  | some n => if n = 0 then 5 else n

/-- `Math.min(Math.ceil(baseDelay * Math.pow(2, retryAttempt)),
MAX_EXPONENTIAL_BACKOFF_SECONDS)`: exact in `Nat` because the base is a
whole number of seconds — the float product is exact below 2^53 and any
larger value is capped at 600 either way. -/
def exponentialRetryDelay (requestDelaySeconds : Option Nat) (retryAttempt : Nat) : Nat :=
  min (retryBaseDelay requestDelaySeconds * 2 ^ retryAttempt)
    MAX_EXPONENTIAL_BACKOFF_SECONDS

/-- The number of seconds counted down before an automatic first-chunk
retry (lines 2187–2218): the exponential delay, replaced by
`retryDelay + 1` when the error is a 429 carrying a structured
`RetryInfo` hint matching `/^(\d+)s$/` (`retryDelayHint` is the parsed
number of seconds), and finally `Math.max`-ed with the rate-limit delay
still pending from the top of the call
(`const finalDelay = Math.max(exponentialDelay, rateLimitDelay)`). -/
def firstChunkRetryDelay (requestDelaySeconds : Option Nat) (retryAttempt : Nat)
    (status : Option Nat) (retryDelayHint : Option Nat) (rateLimitDelay : Nat) : Nat :=
  let exponentialDelay := exponentialRetryDelay requestDelaySeconds retryAttempt
  let exponentialDelay :=
    if status == some 429 then
      match retryDelayHint with
      | some s => s + 1
      | none => exponentialDelay
    else exponentialDelay
  max exponentialDelay rateLimitDelay

/-- C7 counterexample: with the default base (5), attempt 0 and no 429
hint, but a pending 100-second rate-limit delay (reachable from the real
rate-limit computation), the counted-down retry delay is 100 seconds —
not `min(ceil(5 * 2^0), 600) = 5` as the claim states. -/
theorem retry_delay_formula_cex :
    firstChunkRetryDelay none 0 none none
        (rateLimitDelaySeconds (some 5000) 5000 100) = 100 ∧
      exponentialRetryDelay none 0 = 5 ∧ (100 : Nat) ≠ 5 :=
  ⟨rfl, rfl, by decide⟩

/-- C7 amended: the counted-down retry delay is
`max(min(ceil(base * 2^attempt), 600), pendingRateLimitDelay)` with base
`requestDelaySeconds || 5`; when the provider returned a 429 with a
structured retry-delay hint of `s` seconds, the hint takes precedence
over the exponential term, which is replaced by `s + 1` (still `max`-ed
with the pending rate-limit delay). -/
theorem retry_delay_formula (d : Option Nat) (attempt : Nat)
    (hint : Option Nat) (rateLimitDelay : Nat) :
    (firstChunkRetryDelay d attempt none hint rateLimitDelay =
        max (min (retryBaseDelay d * 2 ^ attempt) MAX_EXPONENTIAL_BACKOFF_SECONDS)
          rateLimitDelay) ∧
    (∀ code, code ≠ 429 →
      firstChunkRetryDelay d attempt (some code) hint rateLimitDelay =
        max (min (retryBaseDelay d * 2 ^ attempt) MAX_EXPONENTIAL_BACKOFF_SECONDS)
          rateLimitDelay) ∧
    (firstChunkRetryDelay d attempt (some 429) none rateLimitDelay =
        max (min (retryBaseDelay d * 2 ^ attempt) MAX_EXPONENTIAL_BACKOFF_SECONDS)
          rateLimitDelay) ∧
    (∀ s, firstChunkRetryDelay d attempt (some 429) (some s) rateLimitDelay =
        max (s + 1) rateLimitDelay) := by
  refine ⟨?_, ?_, ?_, ?_⟩
  · rfl
  · intro code hcode
    simp only [firstChunkRetryDelay, beq_iff_eq, Option.some.injEq]
    rw [if_neg hcode]
    rfl
  · rfl
  · intro s; rfl

/-! ## C10: `getModelMaxOutputTokens` (`src/shared/api.ts`, lines 74–121) -/

/-- `ANTHROPIC_DEFAULT_MAX_TOKENS` from `@roo-code/types` (a workspace
package outside the staged sources); 8192 in the repository.  The claims
depend only on which branch returns it, not on its numeric value. -/
def ANTHROPIC_DEFAULT_MAX_TOKENS : Nat := 8192

/-- `CLAUDE_CODE_DEFAULT_MAX_OUTPUT_TOKENS` from `@roo-code/types`. -/
def CLAUDE_CODE_DEFAULT_MAX_OUTPUT_TOKENS : Nat := 8000

/-- `DEFAULT_HYBRID_REASONING_MODEL_MAX_TOKENS = 16_384` (line 68). -/
def DEFAULT_HYBRID_REASONING_MODEL_MAX_TOKENS : Nat := 16384

/-- JS truthiness of a possibly-undefined boolean (`!!x`). -/
def jsTruthy : Option Bool → Bool
  | some b => b
  | none => false

/-- JS truthiness of a possibly-undefined number (0 and undefined are
falsy). -/
def natTruthy : Option Nat → Bool
  | some n => n != 0
  | none => false

/-- `x || d` for a possibly-undefined number. -/
def natOrDefault (x : Option Nat) (d : Nat) : Nat :=
  match x with
  | some n => if n = 0 then d else n
  | none => d

/-- The `ModelInfo` fields `getModelMaxOutputTokens` reads. -/
structure ModelInfo where
  maxTokens : Option Nat := none
  contextWindow : Nat
  supportsReasoningBudget : Option Bool := none
  requiredReasoningBudget : Option Bool := none
  supportsReasoningEffort : Option Bool := none
deriving DecidableEq, Repr

/-- The `ProviderSettings` fields `getModelMaxOutputTokens` reads. -/
structure ProviderSettingsModel where
  apiProvider : Option String := none
  claudeCodeMaxOutputTokens : Option Nat := none
  enableReasoningEffort : Option Bool := none
  modelMaxTokens : Option Nat := none
deriving DecidableEq, Repr

/-- `shouldUseReasoningBudget` (lines 52–58):
`!!model.requiredReasoningBudget || (!!model.supportsReasoningBudget &&
!!settings?.enableReasoningEffort)`. -/
def shouldUseReasoningBudget (model : ModelInfo)
    (settings : Option ProviderSettingsModel) : Bool :=
  jsTruthy model.requiredReasoningBudget ||
    (jsTruthy model.supportsReasoningBudget &&
      (match settings with
       | some s => jsTruthy s.enableReasoningEffort
       | none => false))

/-- The optional `format` argument. -/
inductive ApiFormat where
  | anthropic
  | openai
  | gemini
  | openrouter
deriving DecidableEq, Repr

/-- Substring test over character lists (`modelId.includes(...)`). -/
def charsContain (haystack needle : List Char) : Bool :=
  match haystack with
  | [] => needle.isEmpty
  | _ :: t => needle.isPrefixOf haystack || charsContain t needle

/-- `modelId.includes("claude") || format === "anthropic" ||
(format === "openrouter" && modelId.startsWith("anthropic/"))`. -/
def isAnthropicContext (modelId : String) (format : Option ApiFormat) : Bool :=
  charsContain modelId.data "claude".data || format == some .anthropic ||
    (format == some .openrouter && "anthropic/".data.isPrefixOf modelId.data)

/-- `Math.ceil(model.contextWindow * 0.2)`: exact as the integer ceiling
of `contextWindow / 5` — for any context window below 2^50 the float
product `contextWindow * 0.2` rounds to a value whose ceiling is the
exact one. -/
def ceil20PercentOfContextWindow (contextWindow : Nat) : Nat :=
  (contextWindow + 4) / 5

/-- `getModelMaxOutputTokens` (lines 74–121), branch for branch:
claude-code settings first, then the reasoning-budget override, then the
Anthropic-context defaults, then the 20%-of-context-window clamp, then
`undefined` for format-specific calls without explicit `maxTokens`, and
finally the Anthropic default. -/
def getModelMaxOutputTokens (modelId : String) (model : ModelInfo)
    (settings : Option ProviderSettingsModel) (format : Option ApiFormat) :
    Option Nat :=
  if (settings.bind (·.apiProvider)) == some "claude-code" then
    some (natOrDefault (settings.bind (·.claudeCodeMaxOutputTokens))
      CLAUDE_CODE_DEFAULT_MAX_OUTPUT_TOKENS)
  else if shouldUseReasoningBudget model settings then
    some (natOrDefault (settings.bind (·.modelMaxTokens))
      DEFAULT_HYBRID_REASONING_MODEL_MAX_TOKENS)
  -- For "Hybrid" reasoning models, discard the model's actual maxTokens
  -- for Anthropic contexts.
  else if jsTruthy model.supportsReasoningBudget && isAnthropicContext modelId format then
    some ANTHROPIC_DEFAULT_MAX_TOKENS
  -- For Anthropic contexts, always ensure a maxTokens value is set.
  else if isAnthropicContext modelId format && !natTruthy model.maxTokens then
    some ANTHROPIC_DEFAULT_MAX_TOKENS
  -- If model has explicit maxTokens, clamp it to 20% of the context window.
  else if natTruthy model.maxTokens then
    some (min (model.maxTokens.getD 0)
      (ceil20PercentOfContextWindow model.contextWindow))
  -- For non-Anthropic formats without explicit maxTokens, return undefined.
  else if format.isSome then
    none
  else
    some ANTHROPIC_DEFAULT_MAX_TOKENS

/-- A hybrid reasoning model (`supportsReasoningBudget`, nonzero
`maxTokens`) on a 10 000-token context window. -/
def hybridClaudeModel : ModelInfo :=
  { maxTokens := some 1000, contextWindow := 10000,
    supportsReasoningBudget := some true }

/-- Provider settings that neither select claude-code nor enable a
reasoning budget. -/
def plainAnthropicSettings : ProviderSettingsModel :=
  { apiProvider := some "anthropic" }

/-- C10 counterexample: a hybrid reasoning model in an Anthropic context —
not claude-code, not using a reasoning budget, `maxTokens = 1000` set and
nonzero — returns the Anthropic default (8192), not
`min(1000, ceil(10000 * 0.2)) = 1000` as the claim's min-clause states
(and 8192 also exceeds 20% of the 10 000-token context window). -/
theorem max_output_tokens_cex :
    shouldUseReasoningBudget hybridClaudeModel (some plainAnthropicSettings) = false ∧
    getModelMaxOutputTokens "claude-hybrid" hybridClaudeModel
        (some plainAnthropicSettings) none = some ANTHROPIC_DEFAULT_MAX_TOKENS ∧
    ANTHROPIC_DEFAULT_MAX_TOKENS ≠
      min 1000 (ceil20PercentOfContextWindow 10000) := by
  refine ⟨rfl, by decide, by decide⟩

/-- C10 amended: for a model not using the claude-code provider and not
using a reasoning budget — in an Anthropic context the Anthropic default
is returned whenever the model advertises reasoning-budget support
(hybrid models discard their `maxTokens` there) or `maxTokens` is unset
or zero; in every other situation with `maxTokens` set and nonzero, the
result is `min(maxTokens, ceil(contextWindow * 0.2))`, which never
exceeds 20% (rounded up) of the context window. -/
theorem max_output_tokens_spec (modelId : String) (model : ModelInfo)
    (settings : Option ProviderSettingsModel) (format : Option ApiFormat)
    (hcc : settings.bind (·.apiProvider) ≠ some "claude-code")
    (hrb : shouldUseReasoningBudget model settings = false) :
    (isAnthropicContext modelId format = true →
      jsTruthy model.supportsReasoningBudget = true →
      getModelMaxOutputTokens modelId model settings format =
        some ANTHROPIC_DEFAULT_MAX_TOKENS) ∧
    (isAnthropicContext modelId format = true →
      natTruthy model.maxTokens = false →
      getModelMaxOutputTokens modelId model settings format =
        some ANTHROPIC_DEFAULT_MAX_TOKENS) ∧
    (∀ n, model.maxTokens = some n → n ≠ 0 →
      (jsTruthy model.supportsReasoningBudget = false ∨
        isAnthropicContext modelId format = false) →
      getModelMaxOutputTokens modelId model settings format =
          some (min n (ceil20PercentOfContextWindow model.contextWindow)) ∧
        min n (ceil20PercentOfContextWindow model.contextWindow) ≤
          ceil20PercentOfContextWindow model.contextWindow) := by
  have hccb : (settings.bind (·.apiProvider) == some "claude-code") = false := by
    simpa using hcc
  refine ⟨?_, ?_, ?_⟩
  · intro hA hS
    simp [getModelMaxOutputTokens, hccb, hrb, hA, hS]
  · intro hA hM
    simp [getModelMaxOutputTokens, hccb, hrb, hA, hM]
  · intro n hn hn0 hcase
    have hM : natTruthy model.maxTokens = true := by
      simp [natTruthy, hn, hn0]
    have hgetD : model.maxTokens.getD 0 = n := by simp [hn]
    refine ⟨?_, min_le_right _ _⟩
    rcases hcase with hS | hA
    · simp [getModelMaxOutputTokens, hccb, hrb, hS, hM, hgetD]
    · simp [getModelMaxOutputTokens, hccb, hrb, hA, hM, hgetD]

/-- C10 amended witness: a plain model (`maxTokens = 1000`, 10 000-token
window, no reasoning-budget support) with no settings and no format gets
`min(1000, 2000) = 1000`. -/
theorem max_output_tokens_spec_witness :
    ((none : Option ProviderSettingsModel).bind (·.apiProvider) ≠ some "claude-code" ∧
      shouldUseReasoningBudget { maxTokens := some 1000, contextWindow := 10000 }
        none = false) ∧
    ((isAnthropicContext "gpt-4o" none = true →
      jsTruthy ({ maxTokens := some 1000, contextWindow := 10000 } :
        ModelInfo).supportsReasoningBudget = true →
      getModelMaxOutputTokens "gpt-4o" { maxTokens := some 1000, contextWindow := 10000 }
        none none = some ANTHROPIC_DEFAULT_MAX_TOKENS) ∧
    (isAnthropicContext "gpt-4o" none = true →
      natTruthy ({ maxTokens := some 1000, contextWindow := 10000 } :
        ModelInfo).maxTokens = false →
      getModelMaxOutputTokens "gpt-4o" { maxTokens := some 1000, contextWindow := 10000 }
        none none = some ANTHROPIC_DEFAULT_MAX_TOKENS) ∧
    (∀ n, ({ maxTokens := some 1000, contextWindow := 10000 } :
        ModelInfo).maxTokens = some n → n ≠ 0 →
      (jsTruthy ({ maxTokens := some 1000, contextWindow := 10000 } :
          ModelInfo).supportsReasoningBudget = false ∨
        isAnthropicContext "gpt-4o" none = false) →
      getModelMaxOutputTokens "gpt-4o" { maxTokens := some 1000, contextWindow := 10000 }
          none none =
          some (min n (ceil20PercentOfContextWindow
            ({ maxTokens := some 1000, contextWindow := 10000 } :
              ModelInfo).contextWindow)) ∧
        min n (ceil20PercentOfContextWindow
            ({ maxTokens := some 1000, contextWindow := 10000 } :
              ModelInfo).contextWindow) ≤
          ceil20PercentOfContextWindow
            ({ maxTokens := some 1000, contextWindow := 10000 } :
              ModelInfo).contextWindow)) :=
  ⟨⟨by decide, rfl⟩,
    max_output_tokens_spec "gpt-4o" { maxTokens := some 1000, contextWindow := 10000 }
      none none (by decide) rfl⟩

end RooCode
